import Mathlib

/-!
Verification of the sebak transaction-operation model
(package operation: type registry, operation factory, envelope codec).

The Go source is shallowly embedded: the wire format is modelled as a
parsed JSON tree, Go error returns become explicit error components, and
the pointer receiver of UnmarshalJSON becomes explicit state passing
(old receiver in, new receiver out).
-/

namespace Sebak

/-- A parsed JSON value, standing in for the byte strings handled by
Go's encoding/json.  Objects keep their fields in order. -/
inductive Json where
  | null : Json
  | bool (b : Bool) : Json
  | num (n : Int) : Json
  | str (s : String) : Json
  | arr (elems : List Json) : Json
  | obj (fields : List (String × Json)) : Json

/-- The errors surfaced by this core: the two package errors from
lib/errors named by the code (UnknownOperationType, InvalidOperation)
and the structural decode failures propagated from encoding/json. -/
inductive SebakError where
  | UnknownOperationType : SebakError
  | InvalidOperation : SebakError
  | JSONUnmarshalError : SebakError
  | other (msg : String) : SebakError
deriving DecidableEq, Repr

/-- Modelled from the spec: common.Config is an opaque consensus
configuration, passed through unchanged and never inspected by this
core; a single abstract field makes distinct configurations exist. -/
structure Config where
  raw : Nat
deriving DecidableEq, Repr

/-- type OperationType string -/
abbrev OperationType := String

def TypeCreateAccount : OperationType := "create-account"

def TypePayment : OperationType := "payment"

def TypeCongressVoting : OperationType := "congress-voting"

def TypeCongressVotingResult : OperationType := "congress-voting-result"

def TypeCollectTxFee : OperationType := "collect-tx-fee"

def TypeInflation : OperationType := "inflation"

def TypeUnfreezingRequest : OperationType := "unfreezing-request"

def TypeInflationPF : OperationType := "inflation-pf"

/-- Modelled from the spec: common.InStringArray is not among the shown
sources; per the spec the membership test is an exact, case-sensitive
match against the array, returning the index of the match and whether
one was found. -/
def InStringArray (a : List String) (x : String) : Option Nat × Bool :=
  match a with
  | [] => (none, false)
  | y :: ys =>
    if y = x then (some 0, true)
    else
      match InStringArray ys x with
      | (i, b) => (i.map (· + 1), b)

/-- func IsValidOperationType(oType string) bool -/
def IsValidOperationType (oType : String) : Bool :=
  (InStringArray [
    TypeCreateAccount,
    TypePayment,
    TypeCongressVoting,
    TypeCongressVotingResult,
    TypeCollectTxFee,
    TypeInflation,
    TypeUnfreezingRequest,
    TypeInflationPF] oType).2

/-- func IsNormalOperation(t OperationType) bool -/
def IsNormalOperation (t : OperationType) : Bool :=
  if t = TypeCreateAccount ∨ t = TypePayment ∨
      t = TypeCongressVoting ∨ t = TypeCongressVotingResult ∨
      t = TypeUnfreezingRequest ∨ t = TypeInflationPF then
    true
  else
    false

/-- A dynamically-typed value of Go's Body interface.  The eight
registered concrete variants are external collaborators whose field
layouts are not shown, so each carries its serialized field set
abstractly.  ptr models a Go pointer to a Body value (a distinct
dynamic type that still implements the interface); other models any
further implementer (for instance a test double); nil is the zero
value of the interface. -/
inductive BodyVal where
  | createAccount (fields : List (String × Json)) : BodyVal
  | payment (fields : List (String × Json)) : BodyVal
  | congressVoting (fields : List (String × Json)) : BodyVal
  | congressVotingResult (fields : List (String × Json)) : BodyVal
  | collectTxFee (fields : List (String × Json)) : BodyVal
  | inflation (fields : List (String × Json)) : BodyVal
  | unfreezeRequest (fields : List (String × Json)) : BodyVal
  | inflationPF (fields : List (String × Json)) : BodyVal
  | ptr (v : BodyVal) : BodyVal
  | other (typeName : String) (fields : List (String × Json)) : BodyVal
  | nil : BodyVal

/-- type Header struct with field Type OperationType (json tag "type";
Lean reserves the identifier Type, so the json tag is used). -/
structure Header where
  type : OperationType
deriving DecidableEq, Repr

/-- type Operation struct with fields H Header and B Body -/
structure Operation where
  H : Header
  B : BodyVal

/-- The zero value of Operation in Go: zero Header (empty tag string)
and nil Body interface. -/
def zeroOperation : Operation :=
  { H := { type := "" }, B := BodyVal.nil }

/-- func NewOperation(opb Body) (op Operation, err error).
Go named return values: op starts as the zero Operation and is only
assigned on the success path; the result models (op, err). -/
def NewOperation (opb : BodyVal) : Operation × Option SebakError :=
  match opb with
  | BodyVal.createAccount _ =>
    ({ H := { type := TypeCreateAccount }, B := opb }, none)
  | BodyVal.payment _ =>
    ({ H := { type := TypePayment }, B := opb }, none)
  | BodyVal.collectTxFee _ =>
    ({ H := { type := TypeCollectTxFee }, B := opb }, none)
  | BodyVal.inflation _ =>
    ({ H := { type := TypeInflation }, B := opb }, none)
  | BodyVal.unfreezeRequest _ =>
    ({ H := { type := TypeUnfreezingRequest }, B := opb }, none)
  | BodyVal.congressVoting _ =>
    ({ H := { type := TypeCongressVoting }, B := opb }, none)
  | BodyVal.congressVotingResult _ =>
    ({ H := { type := TypeCongressVotingResult }, B := opb }, none)
  | BodyVal.inflationPF _ =>
    ({ H := { type := TypeInflationPF }, B := opb }, none)
  | _ => (zeroOperation, some SebakError.UnknownOperationType)

/-- Modelled from the spec: the Body interface requires IsWellFormed
(Config to error) and HasFee; the concrete implementations are external
collaborators, so an interpretation assigns each dynamic Body value its
method results.  Go method results depend only on the receiver value,
which the function-of-BodyVal shape captures. -/
structure BodyBehavior where
  isWellFormed : BodyVal → Config → Option SebakError
  hasFee : BodyVal → Bool

/-- func (o Operation) IsWellFormed(conf common.Config) (err error):
return o.B.IsWellFormed(conf) -/
def Operation.IsWellFormed (beh : BodyBehavior) (o : Operation)
    (conf : Config) : Option SebakError :=
  beh.isWellFormed o.B conf

/-- func (o Operation) HasFee() bool: return o.B.HasFee() -/
def Operation.HasFee (beh : BodyBehavior) (o : Operation) : Bool :=
  beh.hasFee o.B

/-- Modelled from the spec: the concrete variant types are external
collaborators whose field layouts are not shown, so json.Unmarshal of a
raw body into one of them is modelled by Go's struct-decoding shape:
nil bytes (the raw message was never set) fail, a JSON object succeeds
and captures its field set, JSON null succeeds leaving the zero struct
(an empty field set), and every other JSON shape is a structural decode
failure. -/
def unmarshalStruct (b : Option Json) : Except SebakError (List (String × Json)) :=
  match b with
  | none => Except.error SebakError.JSONUnmarshalError
  | some (Json.obj fs) => Except.ok fs
  | some Json.null => Except.ok []
  | some _ => Except.error SebakError.JSONUnmarshalError

/-- json.Unmarshal of a JSON value into a Header (struct with one
string field tagged "type"): an object whose "type" field, when
present, must be a string; null leaves the zero Header; any other
shape is a structural decode failure. -/
def unmarshalHeader (j : Json) : Except SebakError Header :=
  match j with
  | Json.null => Except.ok { type := "" }
  | Json.obj fs =>
    match fs.lookup "type" with
    | none => Except.ok { type := "" }
    | some (Json.str s) => Except.ok { type := s }
    | some Json.null => Except.ok { type := "" }
    | some _ => Except.error SebakError.JSONUnmarshalError
  | _ => Except.error SebakError.JSONUnmarshalError

/-- The envelope phase of UnmarshalJSON: json.Unmarshal of the input
into envelop H Header with B preset to a raw-message pointer.  A JSON
object yields the decoded H (zero Header when the key is absent) and
the raw, still-undecoded B value (none when the key is absent, so the
raw message stays nil); null leaves both untouched; any other shape
fails structurally. -/
def unmarshalEnvelop (j : Json) : Except SebakError (Header × Option Json) :=
  match j with
  | Json.null => Except.ok ({ type := "" }, none)
  | Json.obj fs =>
    match fs.lookup "H" with
    | none =>
      Except.ok ({ type := "" }, fs.lookup "B")
    | some hv =>
      match unmarshalHeader hv with
      | Except.error e => Except.error e
      | Except.ok h => Except.ok (h, fs.lookup "B")
  | _ => Except.error SebakError.JSONUnmarshalError

/-- func UnmarshalBodyJSON(t OperationType, b []byte) (body Body, err error):
the dispatch phase, a switch over the eight known tags with a default
arm raising errors.InvalidOperation. -/
def UnmarshalBodyJSON (t : OperationType) (b : Option Json) :
    Except SebakError BodyVal :=
  if t = TypeCreateAccount then
    (unmarshalStruct b).map BodyVal.createAccount
  else if t = TypePayment then
    (unmarshalStruct b).map BodyVal.payment
  else if t = TypeCongressVoting then
    (unmarshalStruct b).map BodyVal.congressVoting
  else if t = TypeCongressVotingResult then
    (unmarshalStruct b).map BodyVal.congressVotingResult
  else if t = TypeCollectTxFee then
    (unmarshalStruct b).map BodyVal.collectTxFee
  else if t = TypeInflation then
    (unmarshalStruct b).map BodyVal.inflation
  else if t = TypeUnfreezingRequest then
    (unmarshalStruct b).map BodyVal.unfreezeRequest
  else if t = TypeInflationPF then
    (unmarshalStruct b).map BodyVal.inflationPF
  else
    Except.error SebakError.InvalidOperation

/-- func (o *Operation) UnmarshalJSON(b []byte) (err error).  The
pointer receiver becomes explicit state passing: the result is the
receiver after the call paired with the returned error.  Mirroring the
source order, the envelope phase runs first; on its success the
receiver field H is assigned the decoded header BEFORE the body
dispatch runs, and B is assigned only if the dispatch also succeeds. -/
def Operation.unmarshalJSON (o : Operation) (b : Json) :
    Operation × Option SebakError :=
  match unmarshalEnvelop b with
  | Except.error e => (o, some e)
  | Except.ok (h, raw) =>
    let o1 : Operation := { o with H := h }
    match UnmarshalBodyJSON h.type raw with
    | Except.error e => (o1, some e)
    | Except.ok body => ({ o1 with B := body }, none)

/-- Modelled from the spec: each concrete variant serializes as its own
field set, not further wrapped; a pointer marshals its pointee.  (The
nil case never arises for operations built by the factory or decoded by
the codec.) -/
def bodyFields : BodyVal → List (String × Json)
  | BodyVal.createAccount fs => fs
  | BodyVal.payment fs => fs
  | BodyVal.congressVoting fs => fs
  | BodyVal.congressVotingResult fs => fs
  | BodyVal.collectTxFee fs => fs
  | BodyVal.inflation fs => fs
  | BodyVal.unfreezeRequest fs => fs
  | BodyVal.inflationPF fs => fs
  | BodyVal.ptr v => bodyFields v
  | BodyVal.other _ fs => fs
  | BodyVal.nil => []

/-- json.Marshal of an Operation: the default struct marshalling of
Operation with H Header and B Body, giving the two-key envelope whose
H is the header object (field tag "type") and whose B is the body's
own serialized field set. -/
def Operation.marshalJSON (o : Operation) : Json :=
  Json.obj [("H", Json.obj [("type", Json.str o.H.type)]),
            ("B", Json.obj (bodyFields o.B))]

/-- The Registry association from a dynamic Body variant to its
discriminant: defined for exactly the eight registered concrete
variants (the fixed, bijective compile-time mapping of the spec). -/
def variantTag : BodyVal → Option OperationType
  | BodyVal.createAccount _ => some TypeCreateAccount
  | BodyVal.payment _ => some TypePayment
  | BodyVal.congressVoting _ => some TypeCongressVoting
  | BodyVal.congressVotingResult _ => some TypeCongressVotingResult
  | BodyVal.collectTxFee _ => some TypeCollectTxFee
  | BodyVal.inflation _ => some TypeInflation
  | BodyVal.unfreezeRequest _ => some TypeUnfreezingRequest
  | BodyVal.inflationPF _ => some TypeInflationPF
  | BodyVal.ptr _ => none
  | BodyVal.other _ _ => none
  | BodyVal.nil => none

/-- Whether a dynamic Body value is one of the eight registered
concrete variants. -/
def isRegisteredVariant (b : BodyVal) : Bool :=
  (variantTag b).isSome

/-! ## Helper lemmas -/

theorem inStringArray_found (a : List String) (x : String) :
    (InStringArray a x).2 = true ↔ x ∈ a := by
  induction a with
  | nil => simp [InStringArray]
  | cons y ys ih =>
    by_cases h : y = x
    · simp [InStringArray, h]
    · have h' : ¬x = y := fun hx => h hx.symm
      simp [InStringArray, h, h', ih]

theorem isValidOperationType_mem (s : String) :
    IsValidOperationType s = true ↔
      s ∈ [TypeCreateAccount, TypePayment, TypeCongressVoting,
           TypeCongressVotingResult, TypeCollectTxFee, TypeInflation,
           TypeUnfreezingRequest, TypeInflationPF] :=
  inStringArray_found _ s

/-! ## Claims -/

/-- C7: IsValidOperationType returns true iff its argument is exactly
(case-sensitively, with no normalization) one of the eight canonical
tag strings. -/
theorem isValidOperationType_iff_canonical (s : String) :
    IsValidOperationType s = true ↔
      (s = "create-account" ∨ s = "payment" ∨ s = "congress-voting" ∨
       s = "congress-voting-result" ∨ s = "collect-tx-fee" ∨
       s = "inflation" ∨ s = "unfreezing-request" ∨ s = "inflation-pf") := by
  rw [isValidOperationType_mem]
  simp [TypeCreateAccount, TypePayment, TypeCongressVoting,
    TypeCongressVotingResult, TypeCollectTxFee, TypeInflation,
    TypeUnfreezingRequest, TypeInflationPF]

/-- C8: IsNormalOperation is total over all tag strings, true exactly
for the six normal tags, and in particular false for CollectTxFee and
Inflation. -/
theorem isNormalOperation_characterization (t : OperationType) :
    (IsNormalOperation t = true ↔
      (t = TypeCreateAccount ∨ t = TypePayment ∨ t = TypeCongressVoting ∨
       t = TypeCongressVotingResult ∨ t = TypeUnfreezingRequest ∨
       t = TypeInflationPF)) ∧
    IsNormalOperation TypeCollectTxFee = false ∧
    IsNormalOperation TypeInflation = false := by
  refine ⟨?_, by decide, by decide⟩
  unfold IsNormalOperation
  split <;> simp_all

/-- C5: the factory accepts every payload of a registered variant,
stores the payload unchanged (whatever its internal fields contain, no
field validation happens) and sets the header tag to the discriminant
the Registry associates with the variant. -/
theorem newOperation_registered (b : BodyVal)
    (h : isRegisteredVariant b = true) :
    (NewOperation b).2 = none ∧
    (NewOperation b).1.B = b ∧
    some (NewOperation b).1.H.type = variantTag b := by
  cases b <;> simp_all [NewOperation, isRegisteredVariant, variantTag]

theorem newOperation_registered_witness :
    isRegisteredVariant
        (BodyVal.payment [("amount", Json.num (-100))]) = true ∧
    ((NewOperation (BodyVal.payment [("amount", Json.num (-100))])).2 = none ∧
     (NewOperation (BodyVal.payment [("amount", Json.num (-100))])).1.B =
       BodyVal.payment [("amount", Json.num (-100))] ∧
     some (NewOperation
        (BodyVal.payment [("amount", Json.num (-100))])).1.H.type =
       variantTag (BodyVal.payment [("amount", Json.num (-100))])) :=
  ⟨rfl, newOperation_registered (BodyVal.payment [("amount", Json.num (-100))]) rfl⟩

/-- C6: the factory rejects every payload whose variant is not one of
the eight registered kinds with UnknownOperationType, leaving the
returned Operation at its zero value. -/
theorem newOperation_unregistered (b : BodyVal)
    (h : isRegisteredVariant b = false) :
    NewOperation b = (zeroOperation, some SebakError.UnknownOperationType) := by
  cases b <;> simp_all [NewOperation, isRegisteredVariant, variantTag]

theorem newOperation_unregistered_witness :
    isRegisteredVariant (BodyVal.other "TestDouble" []) = false ∧
    NewOperation (BodyVal.other "TestDouble" []) =
      (zeroOperation, some SebakError.UnknownOperationType) :=
  ⟨rfl, newOperation_unregistered (BodyVal.other "TestDouble" []) rfl⟩

/-- C10: the factory's type switch matches concrete value types only:
a pointer to any Body value (in particular to one of the eight
registered variants) falls into the default arm and is rejected with
UnknownOperationType. -/
theorem newOperation_rejects_pointer (v : BodyVal) :
    NewOperation (BodyVal.ptr v) =
      (zeroOperation, some SebakError.UnknownOperationType) := rfl

/-- C9: Operation.IsWellFormed and Operation.HasFee delegate exactly
to the contained Body's own methods, for every possible collaborator
behaviour, every Operation and every Config, with the config passed
through unchanged and the Body's result returned unmodified. -/
theorem operation_delegates (beh : BodyBehavior) (o : Operation)
    (conf : Config) :
    Operation.IsWellFormed beh o conf = beh.isWellFormed o.B conf ∧
    Operation.HasFee beh o = beh.hasFee o.B :=
  ⟨rfl, rfl⟩

/-- C1 (counterexample): decoding is not atomic in the claimed sense.
On the concrete input whose envelope carries tag "payment" but whose
body is the number 5, the envelope phase succeeds, the body decode
fails, an error is returned, and yet the receiver's Header has been
overwritten with the decoded header: it differs from its state before
the call. -/
theorem unmarshalJSON_mutates_header_on_body_failure :
    unmarshalEnvelop
        (Json.obj [("H", Json.obj [("type", Json.str "payment")]),
                   ("B", Json.num 5)]) =
      Except.ok ({ type := "payment" }, some (Json.num 5)) ∧
    (Operation.unmarshalJSON zeroOperation
        (Json.obj [("H", Json.obj [("type", Json.str "payment")]),
                   ("B", Json.num 5)])).2.isSome = true ∧
    (Operation.unmarshalJSON zeroOperation
        (Json.obj [("H", Json.obj [("type", Json.str "payment")]),
                   ("B", Json.num 5)])).1.H ≠ zeroOperation.H :=
  ⟨rfl, rfl, by decide⟩

/-- C1 (amended): a decode either fully succeeds or returns an error;
on any failure the receiver's Body is left unchanged, and when the
envelope phase itself fails the whole receiver is unchanged — but when
the body-decode step fails after a successful envelope phase, the
receiver's Header has already been overwritten with the decoded
header. -/
theorem unmarshalJSON_failure_state (o : Operation) (j : Json)
    (h : (Operation.unmarshalJSON o j).2 ≠ none) :
    (Operation.unmarshalJSON o j).1.B = o.B ∧
    (∀ e, unmarshalEnvelop j = Except.error e →
      Operation.unmarshalJSON o j = (o, some e)) ∧
    (∀ hd raw, unmarshalEnvelop j = Except.ok (hd, raw) →
      (Operation.unmarshalJSON o j).1.H = hd) := by
  rcases henv : unmarshalEnvelop j with e | ⟨hd, raw⟩
  · refine ⟨?_, ?_, ?_⟩ <;> simp [Operation.unmarshalJSON, henv]
  · rcases hbody : UnmarshalBodyJSON hd.type raw with e | body
    · refine ⟨?_, ?_, ?_⟩ <;> simp [Operation.unmarshalJSON, henv, hbody]
    · exfalso
      exact h (by simp [Operation.unmarshalJSON, henv, hbody])

theorem unmarshalJSON_failure_state_witness :
    (Operation.unmarshalJSON zeroOperation (Json.num 0)).2 ≠ none ∧
    ((Operation.unmarshalJSON zeroOperation (Json.num 0)).1.B =
       zeroOperation.B ∧
     (∀ e, unmarshalEnvelop (Json.num 0) = Except.error e →
       Operation.unmarshalJSON zeroOperation (Json.num 0) =
         (zeroOperation, some e)) ∧
     (∀ hd raw, unmarshalEnvelop (Json.num 0) = Except.ok (hd, raw) →
       (Operation.unmarshalJSON zeroOperation (Json.num 0)).1.H = hd)) :=
  ⟨by decide, unmarshalJSON_failure_state zeroOperation (Json.num 0) (by decide)⟩

/-- C3: for every tag outside the eight known OperationType values,
UnmarshalBodyJSON fails with InvalidOperation whatever the raw body is
(so the raw body is never decoded), and UnmarshalJSON on any envelope
carrying such a tag returns the InvalidOperation error with the
receiver's Body unchanged — no decoded Operation reaches the caller. -/
theorem unmarshalBodyJSON_unknown_tag (t : OperationType) (b : Option Json)
    (h : IsValidOperationType t = false) :
    UnmarshalBodyJSON t b = Except.error SebakError.InvalidOperation ∧
    (∀ o j hd raw, unmarshalEnvelop j = Except.ok (hd, raw) → hd.type = t →
      (Operation.unmarshalJSON o j).2 = some SebakError.InvalidOperation ∧
      (Operation.unmarshalJSON o j).1.B = o.B) := by
  have hmem : t ∉ [TypeCreateAccount, TypePayment, TypeCongressVoting,
      TypeCongressVotingResult, TypeCollectTxFee, TypeInflation,
      TypeUnfreezingRequest, TypeInflationPF] := fun hm => by
    simp [(isValidOperationType_mem t).mpr hm] at h
  simp only [List.mem_cons, List.not_mem_nil, or_false, not_or] at hmem
  obtain ⟨h1, h2, h3, h4, h5, h6, h7, h8⟩ := hmem
  have hbody : ∀ b', UnmarshalBodyJSON t b' =
      Except.error SebakError.InvalidOperation := by
    intro b'
    unfold UnmarshalBodyJSON
    rw [if_neg h1, if_neg h2, if_neg h3, if_neg h4, if_neg h5, if_neg h6,
      if_neg h7, if_neg h8]
  refine ⟨hbody b, ?_⟩
  intro o j hd raw henv htype
  have : Operation.unmarshalJSON o j =
      ({ o with H := hd }, some SebakError.InvalidOperation) := by
    simp [Operation.unmarshalJSON, henv, htype, hbody raw]
  rw [this]
  exact ⟨rfl, rfl⟩

theorem unmarshalBodyJSON_unknown_tag_witness :
    IsValidOperationType "frozen-yogurt" = false ∧
    (UnmarshalBodyJSON "frozen-yogurt" (some (Json.num 3)) =
       Except.error SebakError.InvalidOperation ∧
     (Operation.unmarshalJSON zeroOperation
        (Json.obj [("H", Json.obj [("type", Json.str "frozen-yogurt")]),
                   ("B", Json.num 3)])).2 =
       some SebakError.InvalidOperation ∧
     (Operation.unmarshalJSON zeroOperation
        (Json.obj [("H", Json.obj [("type", Json.str "frozen-yogurt")]),
                   ("B", Json.num 3)])).1.B = zeroOperation.B) :=
  ⟨by decide,
   (unmarshalBodyJSON_unknown_tag "frozen-yogurt" (some (Json.num 3))
      (by decide)).1,
   (unmarshalBodyJSON_unknown_tag "frozen-yogurt" (some (Json.num 3))
      (by decide)).2 zeroOperation
     (Json.obj [("H", Json.obj [("type", Json.str "frozen-yogurt")]),
                ("B", Json.num 3)])
     { type := "frozen-yogurt" } (some (Json.num 3)) rfl rfl⟩

theorem unmarshalBodyJSON_ok_tag (t : OperationType) (raw : Option Json)
    (body : BodyVal) (h : UnmarshalBodyJSON t raw = Except.ok body) :
    variantTag body = some t := by
  unfold UnmarshalBodyJSON at h
  split_ifs at h with h1 h2 h3 h4 h5 h6 h7 h8 <;>
    (try subst t) <;>
    (try (rcases hs : unmarshalStruct raw with e | fs <;> rw [hs] at h)) <;>
    simp only [Except.map] at h <;>
    cases h <;>
    simp [variantTag]

/-- C4: every Operation produced by the core satisfies the invariant
that its header tag equals the discriminant the Registry associates
with its body's variant: NewOperation establishes it at construction
and a successful UnmarshalJSON re-establishes it. -/
theorem operation_tag_invariant :
    (∀ b op, NewOperation b = (op, none) →
      variantTag op.B = some op.H.type) ∧
    (∀ o j o', Operation.unmarshalJSON o j = (o', none) →
      variantTag o'.B = some o'.H.type) := by
  constructor
  · intro b op h
    cases b <;> simp only [NewOperation] at h <;>
      injection h with h1 h2 <;>
      first
        | exact Option.noConfusion h2
        | (subst h1; rfl)
  · intro o j o' h
    unfold Operation.unmarshalJSON at h
    rcases henv : unmarshalEnvelop j with e | ⟨hd, raw⟩ <;>
      rw [henv] at h <;> dsimp only at h
    · injection h with h1 h2
      exact Option.noConfusion h2
    · rcases hbody : UnmarshalBodyJSON hd.type raw with e | body <;>
        rw [hbody] at h <;> dsimp only at h
      · injection h with h1 h2
        exact Option.noConfusion h2
      · injection h with h1 h2
        subst h1
        exact unmarshalBodyJSON_ok_tag hd.type raw body hbody

theorem operation_tag_invariant_witness :
    variantTag (NewOperation (BodyVal.inflation [])).1.B =
      some (NewOperation (BodyVal.inflation [])).1.H.type ∧
    variantTag (Operation.unmarshalJSON zeroOperation
        (Json.obj [("H", Json.obj [("type", Json.str "create-account")]),
                   ("B", Json.obj [("target", Json.str "GX")])])).1.B =
      some (Operation.unmarshalJSON zeroOperation
        (Json.obj [("H", Json.obj [("type", Json.str "create-account")]),
                   ("B", Json.obj [("target", Json.str "GX")])])).1.H.type :=
  ⟨operation_tag_invariant.1 (BodyVal.inflation []) _ rfl,
   operation_tag_invariant.2 zeroOperation
     (Json.obj [("H", Json.obj [("type", Json.str "create-account")]),
                ("B", Json.obj [("target", Json.str "GX")])]) _ rfl⟩

/-- C2: for every payload of a registered variant, the factory
succeeds, and decoding the JSON encoding of the constructed Operation
yields exactly that Operation back with no error (field-for-field:
header tag and payload fields). -/
theorem encode_decode_roundtrip (b : BodyVal)
    (h : isRegisteredVariant b = true) :
    (NewOperation b).2 = none ∧
    Operation.unmarshalJSON zeroOperation
        (Operation.marshalJSON (NewOperation b).1) =
      ((NewOperation b).1, none) := by
  cases b <;> simp_all [NewOperation, isRegisteredVariant, variantTag,
    Operation.marshalJSON, Operation.unmarshalJSON, unmarshalEnvelop,
    unmarshalHeader, UnmarshalBodyJSON, unmarshalStruct, bodyFields,
    List.lookup, Except.map, TypeCreateAccount, TypePayment,
    TypeCongressVoting, TypeCongressVotingResult, TypeCollectTxFee,
    TypeInflation, TypeUnfreezingRequest, TypeInflationPF]

theorem encode_decode_roundtrip_witness :
    isRegisteredVariant
        (BodyVal.payment [("target", Json.str "GABC"),
                          ("amount", Json.num 100)]) = true ∧
    ((NewOperation (BodyVal.payment [("target", Json.str "GABC"),
                                     ("amount", Json.num 100)])).2 = none ∧
     Operation.unmarshalJSON zeroOperation
         (Operation.marshalJSON
           (NewOperation (BodyVal.payment [("target", Json.str "GABC"),
                                           ("amount", Json.num 100)])).1) =
       ((NewOperation (BodyVal.payment [("target", Json.str "GABC"),
                                        ("amount", Json.num 100)])).1, none)) :=
  ⟨rfl, encode_decode_roundtrip
    (BodyVal.payment [("target", Json.str "GABC"),
                      ("amount", Json.num 100)]) rfl⟩
